import Mathlib

/-!
Verification of the snow2gcp unload workflow, shallowly embedded from the
Python sources src/main.py and src/snow2gcp/snow2gcp.py.

Strings are Lean strings. The Snowflake connection/cursor is modelled as an
oracle mapping each SQL statement text to either a raised error message or
the list of result rows (each row a list of column values), so
cursor.execute(stmt).fetchall() is one oracle call. The two Python modules
duplicate sanitize_path_component, generate_column_query and
generate_unload_template verbatim; they are embedded twice, in namespaces
Main (src/main.py) and Snow2gcp (src/snow2gcp/snow2gcp.py), and their
extensional equality is one of the proved claims.
-/

set_option maxHeartbeats 1000000
set_option maxRecDepth 100000

/-- Python str.lower on one code point, as the sequence of code points it
becomes under the full Unicode lowercase mapping that str.lower applies:
A-Z (65-90) move up by 32 to a-z; U+0130 LATIN CAPITAL LETTER I WITH DOT
ABOVE is the one code point whose lowercase is two code points, 0069 0307
(Unicode SpecialCasing.txt); U+212A KELVIN SIGN lowercases to the ASCII k.
Every other code point lowercases one-for-one and lands in the ASCII range
a-z, 0-9, underscore exactly when it already was there, and the only
consumer of this function, sanitize_path_component, keeps those characters
and turns every other one into an underscore, so all remaining code points
are modelled as fixed. -/
def pyLowerChar (c : Char) : List Char :=
  if 'A' ≤ c ∧ c ≤ 'Z' then [Char.ofNat (c.toNat + 32)]
  else if c = Char.ofNat 0x130 then [Char.ofNat 0x69, Char.ofNat 0x307]
  else if c = Char.ofNat 0x212A then [Char.ofNat 0x6B]
  else [c]

/-- Python str.lower over a whole string: each code point is replaced by its
lowercase expansion. -/
def pyLower (s : String) : String :=
  ⟨s.data.flatMap pyLowerChar⟩

/-- Membership in the regex character class [a-z0-9_] used by
re.sub in sanitize_path_component. -/
def isPathSafeChar (c : Char) : Bool :=
  decide ('a' ≤ c ∧ c ≤ 'z') || decide ('0' ≤ c ∧ c ≤ '9') || decide (c = '_')

/-- Model of re.sub with pattern [^a-z0-9_] and replacement _ : every
character outside the class is replaced, one for one, by an underscore. -/
def reSubUnsafeToUnderscore (s : String) : String :=
  ⟨s.data.map (fun c => if isPathSafeChar c then c else '_')⟩

/-- Model of Python str.split(sep) on a character list: pieces between
occurrences of the separator, none collapsed (an empty input gives one
empty piece, adjacent separators give empty pieces). -/
def pySplit (sep : Char) : List Char → List (List Char)
  | [] => [[]]
  | c :: cs =>
    match pySplit sep cs with
    | [] => []
    | piece :: rest => if c = sep then [] :: piece :: rest else (c :: piece) :: rest

/-- Embeds the expression joining query_resp[0].split with the empty
separator, as written in generate_complete_workflow in both modules:
split the string at every newline and concatenate the pieces. -/
def join_split_newlines (s : String) : String :=
  ⟨(pySplit '\n' s.data).flatten⟩

namespace Main

/-- Embeds sanitize_path_component from src/main.py: re.sub of
[^a-z0-9_] to _ applied to component.lower(). -/
def sanitize_path_component (component : String) : String :=
  reSubUnsafeToUnderscore (pyLower component)

/-- Embeds generate_column_query from src/main.py: the f-string building the
metadata query against INFORMATION_SCHEMA.COLUMNS (the two-character
sequence backslash n inside the LISTAGG delimiter is literal text of the
query, written in Python as an escaped backslash). -/
def generate_column_query (database schema table : String) : String :=
  "\n-- Step 1: Run this query to get the SELECT clause for " ++ database ++ "." ++
    schema ++ "." ++ table ++
    "\nSELECT LISTAGG(\n    CASE \n        WHEN DATA_TYPE IN ('TIMESTAMP_TZ', 'TIMESTAMP_LTZ', 'TIMESTAMP_NTZ') \n             OR DATA_TYPE LIKE '%TIMESTAMP%'\n             OR DATA_TYPE LIKE '%DATETIME%'\n        THEN '        CONVERT_TIMEZONE(''UTC'', ' || COLUMN_NAME || ')::TIMESTAMP as ' || COLUMN_NAME\n        ELSE '        ' || COLUMN_NAME\n    END, \n    ',\\n'\n) as SELECT_CLAUSE\nFROM " ++
    database ++ ".INFORMATION_SCHEMA.COLUMNS \nWHERE TABLE_SCHEMA = '" ++ schema ++
    "' \n    AND TABLE_NAME = '" ++ table ++ "'\nORDER BY ORDINAL_POSITION;\n"

/-- Embeds generate_unload_template from src/main.py: the four-statement
unload plan (Python returns a tuple of strings; the embedding returns the
list of its components in order). -/
def generate_unload_template
    (database schema table base_gcs_path step_1_res : String) : List String :=
  let db_path := sanitize_path_component database
  let schema_path := sanitize_path_component schema
  let table_path := sanitize_path_component table
  let gcs_path := base_gcs_path ++ "/" ++ table_path ++ "/"
  let integration_name :=
    "gcs_integration_" ++ db_path ++ "_" ++ schema_path ++ "_" ++ table_path
  ["USE ROLE ACCOUNTADMIN;",
   "CREATE OR REPLACE STORAGE INTEGRATION " ++ integration_name ++
     "\n  TYPE = EXTERNAL_STAGE\n  STORAGE_PROVIDER = 'GCS'\n  ENABLED = TRUE\n  STORAGE_ALLOWED_LOCATIONS = ('" ++
     gcs_path ++ "');\n",
   "\nCOPY INTO '" ++ gcs_path ++ "'\nFROM (SELECT\n        " ++ step_1_res ++
     "\nFROM " ++ database ++ ".\"" ++ schema ++ "\"." ++ table ++
     ")\nFILE_FORMAT = (TYPE = 'PARQUET', COMPRESSION = 'SNAPPY')\nHEADER = TRUE\nSTORAGE_INTEGRATION = " ++
     integration_name ++ "\nOVERWRITE = TRUE\nMAX_FILE_SIZE = 100000000;\n",
   "\n-- Clean up (optional):\nDROP STORAGE INTEGRATION IF EXISTS " ++
     integration_name ++ ";\n"]

end Main

namespace Snow2gcp

/-- Embeds sanitize_path_component from src/snow2gcp/snow2gcp.py: re.sub of
[^a-z0-9_] to _ applied to component.lower(). -/
def sanitize_path_component (component : String) : String :=
  reSubUnsafeToUnderscore (pyLower component)

/-- Embeds generate_column_query from src/snow2gcp/snow2gcp.py, textually
identical to the copy in src/main.py. -/
def generate_column_query (database schema table : String) : String :=
  "\n-- Step 1: Run this query to get the SELECT clause for " ++ database ++ "." ++
    schema ++ "." ++ table ++
    "\nSELECT LISTAGG(\n    CASE \n        WHEN DATA_TYPE IN ('TIMESTAMP_TZ', 'TIMESTAMP_LTZ', 'TIMESTAMP_NTZ') \n             OR DATA_TYPE LIKE '%TIMESTAMP%'\n             OR DATA_TYPE LIKE '%DATETIME%'\n        THEN '        CONVERT_TIMEZONE(''UTC'', ' || COLUMN_NAME || ')::TIMESTAMP as ' || COLUMN_NAME\n        ELSE '        ' || COLUMN_NAME\n    END, \n    ',\\n'\n) as SELECT_CLAUSE\nFROM " ++
    database ++ ".INFORMATION_SCHEMA.COLUMNS \nWHERE TABLE_SCHEMA = '" ++ schema ++
    "' \n    AND TABLE_NAME = '" ++ table ++ "'\nORDER BY ORDINAL_POSITION;\n"

/-- Embeds generate_unload_template from src/snow2gcp/snow2gcp.py, textually
identical to the copy in src/main.py. -/
def generate_unload_template
    (database schema table base_gcs_path step_1_res : String) : List String :=
  let db_path := sanitize_path_component database
  let schema_path := sanitize_path_component schema
  let table_path := sanitize_path_component table
  let gcs_path := base_gcs_path ++ "/" ++ table_path ++ "/"
  let integration_name :=
    "gcs_integration_" ++ db_path ++ "_" ++ schema_path ++ "_" ++ table_path
  ["USE ROLE ACCOUNTADMIN;",
   "CREATE OR REPLACE STORAGE INTEGRATION " ++ integration_name ++
     "\n  TYPE = EXTERNAL_STAGE\n  STORAGE_PROVIDER = 'GCS'\n  ENABLED = TRUE\n  STORAGE_ALLOWED_LOCATIONS = ('" ++
     gcs_path ++ "');\n",
   "\nCOPY INTO '" ++ gcs_path ++ "'\nFROM (SELECT\n        " ++ step_1_res ++
     "\nFROM " ++ database ++ ".\"" ++ schema ++ "\"." ++ table ++
     ")\nFILE_FORMAT = (TYPE = 'PARQUET', COMPRESSION = 'SNAPPY')\nHEADER = TRUE\nSTORAGE_INTEGRATION = " ++
     integration_name ++ "\nOVERWRITE = TRUE\nMAX_FILE_SIZE = 100000000;\n",
   "\n-- Clean up (optional):\nDROP STORAGE INTEGRATION IF EXISTS " ++
     integration_name ++ ";\n"]

end Snow2gcp

/-- The Snowflake connection/cursor as an oracle: each executed statement
text either raises an error message or yields its fetched rows. -/
def DbOracle : Type :=
  String → Except String (List (List String))

/-- Outcome of generate_complete_workflow for one table: the plan statements
the cursor actually executed, in order, and the raised error, if any. -/
structure WorkflowRun where
  executed : List String
  error : Option String
deriving Repr, DecidableEq

/-- Embeds the statement loop of generate_complete_workflow in src/main.py:
the loop body ends in a return statement, so the first statement is executed
and the function returns at once (an execution error is raised instead). -/
def run_statements_main (db : DbOracle) : List String → List String × Option String
  | [] => ([], none)
  | s :: _ =>
    match db s with
    | .error e => ([s], some e)
    | .ok _ => ([s], none)

/-- Embeds the statement loop of generate_complete_workflow in
src/snow2gcp/snow2gcp.py: every statement is executed in order, and the
first raised error aborts the remaining statements. -/
def run_statements_pkg (db : DbOracle) : List String → List String × Option String
  | [] => ([], none)
  | s :: rest =>
    match db s with
    | .error e => ([s], some e)
    | .ok _ =>
      let r := run_statements_pkg db rest
      (s :: r.1, r.2)

/-- Embeds generate_complete_workflow from src/main.py: build and execute
the metadata query, take fetchall()[0] (an empty result raises IndexError),
assert that this first row has exactly one column, strip newlines from its
single value, build the unload plan and run the statement loop. -/
def generate_complete_workflow_main (db : DbOracle)
    (database schema table base_gcs_path : String) : WorkflowRun :=
  let step1 := Main.generate_column_query database schema table
  match db step1 with
  | .error e => ⟨[], some e⟩
  | .ok rows =>
    match rows with
    | [] => ⟨[], some "IndexError: list index out of range"⟩
    | query_resp :: _ =>
      if query_resp.length = 1 then
        let step_1_res := join_split_newlines query_resp.headI
        let step2 :=
          Main.generate_unload_template database schema table base_gcs_path step_1_res
        let r := run_statements_main db step2
        ⟨r.1, r.2⟩
      else
        ⟨[], some "AssertionError: Expected a single row with the SELECT_CLAUSE"⟩

/-- Embeds generate_complete_workflow from src/snow2gcp/snow2gcp.py: same
metadata handling as the src/main.py copy, but the statement loop prints
each result and continues, so every plan statement is executed unless one
raises. -/
def generate_complete_workflow_pkg (db : DbOracle)
    (database schema table base_gcs_path : String) : WorkflowRun :=
  let step1 := Snow2gcp.generate_column_query database schema table
  match db step1 with
  | .error e => ⟨[], some e⟩
  | .ok rows =>
    match rows with
    | [] => ⟨[], some "IndexError: list index out of range"⟩
    | query_resp :: _ =>
      if query_resp.length = 1 then
        let step_1_res := join_split_newlines query_resp.headI
        let step2 :=
          Snow2gcp.generate_unload_template database schema table base_gcs_path step_1_res
        let r := run_statements_pkg db step2
        ⟨r.1, r.2⟩
      else
        ⟨[], some "AssertionError: Expected a single row with the SELECT_CLAUSE"⟩

/-- Summary state of the batch loop in main() of src/main.py: how many worklist
items the loop body ran for, how many succeeded, and the lines appended to the
failure log failed.txt. -/
structure BatchResult where
  attempted : Nat
  succeeded : Nat
  failureLog : List String
deriving Repr, DecidableEq

/-- One iteration of the batch loop of main() in src/main.py: run
generate_complete_workflow for the (database, schema, table) item with
base_gcs_path built from the bucket and the schema; on success increment the
success counter, on a raised error append the identifying line and the Error
line to the failure log. Either way the loop body ran for this item. -/
def batch_step (db : DbOracle) (gcs_bucket : String)
    (acc : BatchResult) (t : String × String × String) : BatchResult :=
  let wr := generate_complete_workflow_main db t.1 t.2.1 t.2.2
    ("gcs://" ++ gcs_bucket ++ "/" ++ t.2.1)
  match wr.error with
  | none => ⟨acc.attempted + 1, acc.succeeded + 1, acc.failureLog⟩
  | some e =>
    ⟨acc.attempted + 1, acc.succeeded,
     acc.failureLog ++ [t.1 ++ "." ++ t.2.1 ++ "." ++ t.2.2, "Error: " ++ e]⟩

/-- Embeds the batch loop of main() in src/main.py: fold batch_step over the
whole worklist, starting from zero counters and an empty failure log. -/
def run_batch (db : DbOracle) (gcs_bucket : String)
    (tables : List (String × String × String)) : BatchResult :=
  tables.foldl (batch_step db gcs_bucket) ⟨0, 0, []⟩

/-- Sample oracle: every statement succeeds and fetches the single row whose
single column is the one-line clause a. -/
def okOracle : DbOracle :=
  fun _ => .ok [["a"]]

/-- Sample oracle: every statement succeeds, and the metadata query fetches
two rows of one column each. -/
def twoRowOracle : DbOracle :=
  fun _ => .ok [["a"], ["b"]]

/-- Sample oracle: every statement fetches an empty result set. -/
def noRowOracle : DbOracle :=
  fun _ => .ok []

/-- Sample oracle: every statement fetches a single row with two columns. -/
def twoColOracle : DbOracle :=
  fun _ => .ok [["a", "b"]]

/-- Sample oracle for the three-table batch scenario: executing the metadata
query of table t2 raises boom; every other statement succeeds with a single
one-column row. -/
def failT2Oracle : DbOracle :=
  fun q =>
    if q = Main.generate_column_query "d" "s" "t2" then .error "boom"
    else .ok [["a"]]

/-!
Helper lemmas. None of these is named by a claim; they are shared
infrastructure for the claim theorems below.
-/

theorem char_le_iff_toNat (a b : Char) : a ≤ b ↔ a.toNat ≤ b.toNat := Iff.rfl

theorem isPathSafeChar_iff (c : Char) :
    isPathSafeChar c = true ↔
      ('a' ≤ c ∧ c ≤ 'z') ∨ ('0' ≤ c ∧ c ≤ '9') ∨ c = '_' := by
  simp [isPathSafeChar, Bool.or_eq_true, decide_eq_true_eq, or_assoc]

theorem pyLowerChar_of_safe (c : Char) (h : isPathSafeChar c = true) :
    pyLowerChar c = [c] := by
  have h' := (isPathSafeChar_iff c).mp h
  unfold pyLowerChar
  split_ifs with h1 h2 h3
  · exfalso
    obtain ⟨hA, hZ⟩ := h1
    rw [char_le_iff_toNat] at hA hZ
    have e1 : ('A').toNat = 65 := rfl
    have e2 : ('Z').toNat = 90 := rfl
    rcases h' with ⟨g1, g2⟩ | ⟨g1, g2⟩ | g3
    · rw [char_le_iff_toNat] at g1 g2
      have e3 : ('a').toNat = 97 := rfl
      omega
    · rw [char_le_iff_toNat] at g1 g2
      have e3 : ('0').toNat = 48 := rfl
      have e4 : ('9').toNat = 57 := rfl
      omega
    · subst g3
      have e3 : ('_').toNat = 95 := rfl
      omega
  · exfalso
    subst h2
    revert h
    decide
  · exfalso
    subst h3
    revert h
    decide
  · rfl

theorem sub_of_safe (c : Char) (h : isPathSafeChar c = true) :
    (if isPathSafeChar c then c else '_') = c := if_pos h

theorem isPathSafeChar_sub (c : Char) :
    isPathSafeChar (if isPathSafeChar c then c else '_') = true := by
  by_cases h : isPathSafeChar c = true
  · rw [if_pos h]
    exact h
  · rw [if_neg h]
    decide

theorem pySplit_ne_nil (sep : Char) : ∀ l : List Char, pySplit sep l ≠ [] := by
  intro l
  induction l with
  | nil => simp [pySplit]
  | cons c cs ih =>
    unfold pySplit
    cases h : pySplit sep cs with
    | nil => exact absurd h ih
    | cons piece rest =>
      split
      · simp_all
      · split <;> simp

theorem flatten_pySplit (sep : Char) : ∀ l : List Char,
    (pySplit sep l).flatten = l.filter (fun c => c != sep) := by
  intro l
  induction l with
  | nil => simp [pySplit]
  | cons c cs ih =>
    unfold pySplit
    cases h : pySplit sep cs with
    | nil => exact absurd h (pySplit_ne_nil sep cs)
    | cons piece rest =>
      have ih' : piece ++ rest.flatten = cs.filter (fun c => c != sep) := by
        have : (pySplit sep cs).flatten = cs.filter (fun c => c != sep) := ih
        rw [h] at this
        simpa using this
      by_cases hc : c = sep
      · subst hc
        simp [ih']
      · simp [hc, ih']

theorem flatMap_singleton_of (f : Char → List Char) :
    ∀ l : List Char, (∀ x ∈ l, f x = [x]) → l.flatMap f = l := by
  intro l
  induction l with
  | nil => simp
  | cons c cs ih =>
    intro h
    rw [List.flatMap_cons, h c (by simp), ih (fun x hx => h x (by simp [hx]))]
    rfl

theorem pyLowerChar_length_of_ne (c : Char) (h : c ≠ Char.ofNat 0x130) :
    (pyLowerChar c).length = 1 := by
  unfold pyLowerChar
  split_ifs <;> rfl

theorem flatMap_pyLowerChar_length :
    ∀ l : List Char, Char.ofNat 0x130 ∉ l →
      (l.flatMap pyLowerChar).length = l.length := by
  intro l
  induction l with
  | nil => simp
  | cons c cs ih =>
    intro h
    rw [List.flatMap_cons, List.length_append,
      pyLowerChar_length_of_ne c (fun e => h (e ▸ List.mem_cons_self c cs)),
      ih (fun hm => h (List.mem_cons_of_mem c hm))]
    simp only [List.length_cons]
    omega

theorem sanitize_chars_safe (s : String) :
    ∀ x ∈ (Main.sanitize_path_component s).data, isPathSafeChar x = true := by
  intro x hx
  have hx' : x ∈ ((pyLower s).data).map (fun c => if isPathSafeChar c then c else '_') := hx
  obtain ⟨y, _, rfl⟩ := List.mem_map.mp hx'
  exact isPathSafeChar_sub y

theorem batch_step_attempted (db : DbOracle) (bucket : String)
    (acc : BatchResult) (t : String × String × String) :
    (batch_step db bucket acc t).attempted = acc.attempted + 1 := by
  simp only [batch_step]
  split <;> rfl

theorem batch_step_log_invariant (db : DbOracle) (bucket : String)
    (acc : BatchResult) (t : String × String × String) :
    (batch_step db bucket acc t).failureLog.length
      + 2 * (batch_step db bucket acc t).succeeded
      = acc.failureLog.length + 2 * acc.succeeded + 2 := by
  simp only [batch_step]
  split <;> simp [List.length_append] <;> omega

theorem batch_step_succ_le (db : DbOracle) (bucket : String)
    (acc : BatchResult) (t : String × String × String) :
    (batch_step db bucket acc t).succeeded ≤ acc.succeeded + 1 := by
  simp only [batch_step]
  split <;> simp

theorem foldl_batch_attempted (db : DbOracle) (bucket : String) :
    ∀ (tables : List (String × String × String)) (acc : BatchResult),
      (List.foldl (batch_step db bucket) acc tables).attempted
        = acc.attempted + tables.length := by
  intro tables
  induction tables with
  | nil => intro acc; simp
  | cons t ts ih =>
    intro acc
    rw [List.foldl_cons, ih, batch_step_attempted]
    simp only [List.length_cons]
    omega

theorem foldl_batch_log (db : DbOracle) (bucket : String) :
    ∀ (tables : List (String × String × String)) (acc : BatchResult),
      (List.foldl (batch_step db bucket) acc tables).failureLog.length
        + 2 * (List.foldl (batch_step db bucket) acc tables).succeeded
        = acc.failureLog.length + 2 * acc.succeeded + 2 * tables.length := by
  intro tables
  induction tables with
  | nil => intro acc; simp
  | cons t ts ih =>
    intro acc
    rw [List.foldl_cons, ih]
    have h := batch_step_log_invariant db bucket acc t
    simp only [List.length_cons]
    omega

theorem foldl_batch_succ_le (db : DbOracle) (bucket : String) :
    ∀ (tables : List (String × String × String)) (acc : BatchResult),
      (List.foldl (batch_step db bucket) acc tables).succeeded
        ≤ acc.succeeded + tables.length := by
  intro tables
  induction tables with
  | nil => intro acc; simp
  | cons t ts ih =>
    intro acc
    rw [List.foldl_cons]
    have h1 := ih (batch_step db bucket acc t)
    have h2 := batch_step_succ_le db bucket acc t
    simp only [List.length_cons]
    omega

/-!
Claim theorems. Each theorem carries the claim id of CLAIMS.json.
-/

/-- C5 (amended): for every input string that does not contain U+0130 -- the
one code point whose Python lowercase expansion is two code points -- the
sanitizer returns a string of the same length as the input, every character
of the output is in the class [a-z0-9_], and the output is the one-for-one
image of the lowercased input, with each character outside the class
replaced by an underscore. -/
theorem claim_C5_sanitizer_shape (s : String) (h : Char.ofNat 0x130 ∉ s.data) :
    (Main.sanitize_path_component s).length = s.length ∧
    (Main.sanitize_path_component s).data.all isPathSafeChar = true ∧
    (Main.sanitize_path_component s).data =
      (pyLower s).data.map (fun c => if isPathSafeChar c then c else '_') := by
  refine ⟨?_, ?_, rfl⟩
  · show ((s.data.flatMap pyLowerChar).map
      (fun c => if isPathSafeChar c then c else '_')).length = s.data.length
    rw [List.length_map]
    exact flatMap_pyLowerChar_length s.data h
  · rw [List.all_eq_true]
    intro x hx
    exact sanitize_chars_safe s x hx

/-- C5 witness: the amended statement instantiated at the spec's own sample
input My View!, whose sanitized form is my_view_. -/
theorem claim_C5_sanitizer_shape_witness :
    (Main.sanitize_path_component "My View!").length = "My View!".length ∧
    (Main.sanitize_path_component "My View!").data.all isPathSafeChar = true ∧
    (Main.sanitize_path_component "My View!").data =
      (pyLower "My View!").data.map (fun c => if isPathSafeChar c then c else '_') :=
  claim_C5_sanitizer_shape "My View!" (by decide)

/-- C5 counterexample: the claim as stated fails at the one-character string
U+0130 (LATIN CAPITAL LETTER I WITH DOT ABOVE): Python lowercases it to the
two code points 0069 0307, so the sanitizer returns the two-character string
i_ and the length is not preserved. -/
theorem claim_C5_counterexample_dotted_capital_i :
    (String.mk [Char.ofNat 0x130]).length = 1 ∧
    Main.sanitize_path_component (String.mk [Char.ofNat 0x130]) = "i_" ∧
    (Main.sanitize_path_component (String.mk [Char.ofNat 0x130])).length = 2 ∧
    (Main.sanitize_path_component (String.mk [Char.ofNat 0x130])).length ≠
      (String.mk [Char.ofNat 0x130]).length := by
  refine ⟨rfl, by decide, rfl, by decide⟩

/-- C6: the sanitizer is idempotent: sanitizing an already sanitized string
changes nothing, because every output character is in [a-z0-9_] and such
characters are fixed by both lowercasing and the substitution. -/
theorem claim_C6_sanitizer_idempotent (s : String) :
    Main.sanitize_path_component (Main.sanitize_path_component s) =
      Main.sanitize_path_component s := by
  apply String.ext
  show (((Main.sanitize_path_component s).data.flatMap pyLowerChar).map
      (fun c => if isPathSafeChar c then c else '_'))
    = (Main.sanitize_path_component s).data
  rw [flatMap_singleton_of pyLowerChar _
    (fun x hx => pyLowerChar_of_safe x (sanitize_chars_safe s x hx))]
  have hmap : (Main.sanitize_path_component s).data.map
      (fun c => if isPathSafeChar c then c else '_')
      = (Main.sanitize_path_component s).data.map id :=
    List.map_congr_left (fun x hx => sub_of_safe x (sanitize_chars_safe s x hx))
  rw [hmap, List.map_id]

/-- C7: the sequencer collapses the metadata result into a single line by
removing every newline character (joining the pieces of a newline split
deletes exactly the separators), and on the spec's sample multi-line clause
it yields the expected single-line clause. -/
theorem claim_C7_newline_collapse :
    (∀ s : String,
      (join_split_newlines s).data = s.data.filter (fun c => c != '\n')) ∧
    join_split_newlines "a,\nCONVERT_TIMEZONE('UTC', b)::TIMESTAMP as b" =
      "a,CONVERT_TIMEZONE('UTC', b)::TIMESTAMP as b" := by
  constructor
  · intro s
    exact flatten_pySplit '\n' s.data
  · decide

/-- C10: the three generator functions duplicated between src/main.py and
src/snow2gcp/snow2gcp.py are extensionally equal: on every input each pair
returns the same value. -/
theorem claim_C10_duplicated_modules_agree (a b c d e : String) :
    Main.sanitize_path_component a = Snow2gcp.sanitize_path_component a ∧
    Main.generate_column_query a b c = Snow2gcp.generate_column_query a b c ∧
    Main.generate_unload_template a b c d e =
      Snow2gcp.generate_unload_template a b c d e :=
  ⟨rfl, rfl, rfl⟩

/-- C1: divergence witness for the statement loop. Under an oracle for which
every statement succeeds (so no execution error ever arises), the sequencer
of src/main.py executes only the first of the four generated plan statements
and returns with no error -- the return statement inside the loop body ends
the function on the first iteration -- while the copy in
src/snow2gcp/snow2gcp.py executes all four statements in the plan's order. -/
theorem claim_C1_main_sequencer_stops_after_first_statement :
    (generate_complete_workflow_main okOracle "d" "s" "t" "gcs://b/s").executed =
      ["USE ROLE ACCOUNTADMIN;"] ∧
    (generate_complete_workflow_main okOracle "d" "s" "t" "gcs://b/s").error = none ∧
    (Main.generate_unload_template "d" "s" "t" "gcs://b/s" "a").length = 4 ∧
    (generate_complete_workflow_pkg okOracle "d" "s" "t" "gcs://b/s").executed =
      Snow2gcp.generate_unload_template "d" "s" "t" "gcs://b/s" "a" ∧
    (generate_complete_workflow_pkg okOracle "d" "s" "t" "gcs://b/s").error = none := by
  refine ⟨by decide, by decide, by decide, by decide, by decide⟩

/-- C2: divergence witness for the metadata shape check. With a metadata
result of two rows of one column each, the workflow raises no error and
builds and executes all four unload statements -- fetchall()[0] silently
keeps only the first row and the assert checks only that row's column count
-- while a zero-row result (IndexError on fetchall()[0]) and a one-row
two-column result (failed assert) are fatal before any unload statement is
built or executed. -/
theorem claim_C2_multirow_metadata_not_fatal :
    (generate_complete_workflow_pkg twoRowOracle "d" "s" "t" "gcs://b/s").error = none ∧
    (generate_complete_workflow_pkg twoRowOracle "d" "s" "t" "gcs://b/s").executed =
      Snow2gcp.generate_unload_template "d" "s" "t" "gcs://b/s" "a" ∧
    (Snow2gcp.generate_unload_template "d" "s" "t" "gcs://b/s" "a").length = 4 ∧
    (generate_complete_workflow_pkg noRowOracle "d" "s" "t" "gcs://b/s").error =
      some "IndexError: list index out of range" ∧
    (generate_complete_workflow_pkg noRowOracle "d" "s" "t" "gcs://b/s").executed = [] ∧
    (generate_complete_workflow_pkg twoColOracle "d" "s" "t" "gcs://b/s").error =
      some "AssertionError: Expected a single row with the SELECT_CLAUSE" ∧
    (generate_complete_workflow_pkg twoColOracle "d" "s" "t" "gcs://b/s").executed = [] := by
  refine ⟨by decide, by decide, by decide, by decide, by decide, by decide, by decide⟩

/-- C3: the batch runner attempts every worklist item regardless of earlier
failures, its failure log holds exactly two lines per failed item, and in the
spec's three-table scenario in which only the second table's workflow raises
(here: its metadata query raises boom) the run reports succeeded = 2,
failed = 1, and the failure log holds exactly the one entry for the second
table: its d.s.t2 line followed by its Error: boom line. -/
theorem claim_C3_batch_runner_isolates_failures :
    (∀ (db : DbOracle) (bucket : String)
        (tables : List (String × String × String)),
      (run_batch db bucket tables).attempted = tables.length ∧
      (run_batch db bucket tables).succeeded ≤ tables.length ∧
      (run_batch db bucket tables).failureLog.length =
        2 * (tables.length - (run_batch db bucket tables).succeeded)) ∧
    run_batch failT2Oracle "b" [("d", "s", "t1"), ("d", "s", "t2"), ("d", "s", "t3")] =
      ⟨3, 2, ["d.s.t2", "Error: boom"]⟩ := by
  constructor
  · intro db bucket tables
    have h1 := foldl_batch_attempted db bucket tables ⟨0, 0, []⟩
    have h2 := foldl_batch_log db bucket tables ⟨0, 0, []⟩
    have h3 := foldl_batch_succ_le db bucket tables ⟨0, 0, []⟩
    have e : run_batch db bucket tables
        = List.foldl (batch_step db bucket) ⟨0, 0, []⟩ tables := rfl
    rw [e]
    simp only [List.length_nil] at h1 h2 h3
    refine ⟨?_, ?_, ?_⟩ <;> omega
  · decide


/-- C4: for every input the unload plan is exactly the four statements in
fixed order -- role elevation, create-or-replace storage integration,
copy-out, drop-if-exists cleanup -- and the integration name introduced
after CREATE OR REPLACE STORAGE INTEGRATION in statement 2 appears verbatim
inside statement 3 (between some prefix p and suffix q) and in statement 4
before the closing semicolon. -/
theorem claim_C4_plan_shape (database schema table base_gcs_path step_1_res : String) :
    ∃ p q,
      Snow2gcp.generate_unload_template database schema table base_gcs_path step_1_res =
        ["USE ROLE ACCOUNTADMIN;",
         "CREATE OR REPLACE STORAGE INTEGRATION " ++
           ("gcs_integration_" ++ Snow2gcp.sanitize_path_component database ++ "_" ++
            Snow2gcp.sanitize_path_component schema ++ "_" ++
            Snow2gcp.sanitize_path_component table) ++
           "\n  TYPE = EXTERNAL_STAGE\n  STORAGE_PROVIDER = 'GCS'\n  ENABLED = TRUE\n  STORAGE_ALLOWED_LOCATIONS = ('" ++
           (base_gcs_path ++ "/" ++ Snow2gcp.sanitize_path_component table ++ "/") ++
           "');\n",
         p ++
           ("gcs_integration_" ++ Snow2gcp.sanitize_path_component database ++ "_" ++
            Snow2gcp.sanitize_path_component schema ++ "_" ++
            Snow2gcp.sanitize_path_component table) ++ q,
         "\n-- Clean up (optional):\nDROP STORAGE INTEGRATION IF EXISTS " ++
           ("gcs_integration_" ++ Snow2gcp.sanitize_path_component database ++ "_" ++
            Snow2gcp.sanitize_path_component schema ++ "_" ++
            Snow2gcp.sanitize_path_component table) ++ ";\n"] :=
  ⟨"\nCOPY INTO '" ++
     (base_gcs_path ++ "/" ++ Snow2gcp.sanitize_path_component table ++ "/") ++
     "'\nFROM (SELECT\n        " ++ step_1_res ++ "\nFROM " ++ database ++ ".\"" ++
     schema ++ "\"." ++ table ++
     ")\nFILE_FORMAT = (TYPE = 'PARQUET', COMPRESSION = 'SNAPPY')\nHEADER = TRUE\nSTORAGE_INTEGRATION = ",
   "\nOVERWRITE = TRUE\nMAX_FILE_SIZE = 100000000;\n", rfl⟩

/-- C8: for every input, the copy-out statement of the plan substitutes the
caller's select clause verbatim into the SELECT-FROM template against the
sanitized target location, and fixes Parquet file type with Snappy
compression, HEADER = TRUE, OVERWRITE = TRUE and
MAX_FILE_SIZE = 100000000. -/
theorem claim_C8_copy_statement (database schema table base_gcs_path step_1_res : String) :
    ∃ s1 s2 s4 s3 middle intg,
      Snow2gcp.generate_unload_template database schema table base_gcs_path step_1_res =
        [s1, s2, s3, s4] ∧
      s3 = "\nCOPY INTO '" ++
        (base_gcs_path ++ "/" ++ Snow2gcp.sanitize_path_component table ++ "/") ++
        "'\nFROM (SELECT\n        " ++ step_1_res ++ "\nFROM " ++ middle ++
        ")\nFILE_FORMAT = (TYPE = 'PARQUET', COMPRESSION = 'SNAPPY')\nHEADER = TRUE\nSTORAGE_INTEGRATION = " ++
        intg ++ "\nOVERWRITE = TRUE\nMAX_FILE_SIZE = 100000000;\n" := by
  refine ⟨_, _, _, _, database ++ ".\"" ++ schema ++ "\"." ++ table,
    "gcs_integration_" ++ Snow2gcp.sanitize_path_component database ++ "_" ++
      Snow2gcp.sanitize_path_component schema ++ "_" ++
      Snow2gcp.sanitize_path_component table, rfl, ?_⟩
  apply String.ext
  simp [List.append_assoc]

/-- C9: the plan is coherent on its target location: the single location in
the STORAGE_ALLOWED_LOCATIONS clause of statement 2 and the COPY INTO target
of statement 3 are both exactly the term
base_gcs_path ++ / ++ sanitize_path_component table ++ / . -/
theorem claim_C9_allowed_location_equals_copy_target
    (database schema table base_gcs_path step_1_res : String) :
    ∃ s1 s3 s4 q,
      Snow2gcp.generate_unload_template database schema table base_gcs_path step_1_res =
        [s1,
         "CREATE OR REPLACE STORAGE INTEGRATION " ++
           ("gcs_integration_" ++ Snow2gcp.sanitize_path_component database ++ "_" ++
            Snow2gcp.sanitize_path_component schema ++ "_" ++
            Snow2gcp.sanitize_path_component table) ++
           "\n  TYPE = EXTERNAL_STAGE\n  STORAGE_PROVIDER = 'GCS'\n  ENABLED = TRUE\n  STORAGE_ALLOWED_LOCATIONS = ('" ++
           (base_gcs_path ++ "/" ++ Snow2gcp.sanitize_path_component table ++ "/") ++
           "');\n",
         s3, s4] ∧
      s3 = "\nCOPY INTO '" ++
        (base_gcs_path ++ "/" ++ Snow2gcp.sanitize_path_component table ++ "/") ++
        "'\nFROM (SELECT\n        " ++ q := by
  refine ⟨_, _, _,
    step_1_res ++ "\nFROM " ++ database ++ ".\"" ++ schema ++ "\"." ++ table ++
      ")\nFILE_FORMAT = (TYPE = 'PARQUET', COMPRESSION = 'SNAPPY')\nHEADER = TRUE\nSTORAGE_INTEGRATION = " ++
      ("gcs_integration_" ++ Snow2gcp.sanitize_path_component database ++ "_" ++
       Snow2gcp.sanitize_path_component schema ++ "_" ++
       Snow2gcp.sanitize_path_component table) ++
      "\nOVERWRITE = TRUE\nMAX_FILE_SIZE = 100000000;\n",
    rfl, ?_⟩
  apply String.ext
  simp [List.append_assoc]
